import Mathlib

/-!
Verification of the stock service bootstrap, `apps/stock/src/main.ts`:

```
async function bootstrap() {
  console.log('Stock Service Starting...');
  const app = await NestFactory.create(StockModule);
  await app.listen(process.env.port ?? 3000);
}
bootstrap();
```

The embedding below models the process environment as a finite association
list of variable names to string values (POSIX: names are case-sensitive),
the nullish-coalescing resolution `process.env.port ?? 3000`, and the
observable steps of `bootstrap()` as a trace of events in source order.
-/

namespace StockBootstrap

/-- The type of the value passed to `app.listen`: in TypeScript,
`process.env.port ?? 3000` has type `string | number` — the raw environment
string when the variable is present, or the numeric literal `3000` when it
is absent. -/
inductive StrOrNat where
  | str : String → StrOrNat
  | num : Nat → StrOrNat
deriving DecidableEq, Repr

/-- A process environment, as `process.env` presents it: a finite list of
(name, value) bindings of environment variables. -/
abbrev Env := List (String × String)

/-- Reading a variable from the environment (`process.env[k]`): the value of
the first binding whose name equals `k` exactly (case-sensitive, as on
POSIX), or `none` when the variable is unset. -/
def envLookup (env : Env) (k : String) : Option String :=
  (env.find? (fun p => p.fst == k)).map Prod.snd

/-- The expression `process.env.port ?? 3000`, as a function of the value of
the environment variable: nullish coalescing keeps any present value (any
string, the empty string included) verbatim and falls back to the literal
`3000` only when the value is absent. No parsing, trimming or range check
appears in the source. -/
def resolveListenArg : Option String → StrOrNat
  | some s => StrOrNat.str s
  | none => StrOrNat.num 3000

/-- The listen argument the bootstrap computes from a given environment:
`process.env.port ?? 3000`, with `process.env.port` read from `env`. Note
that the source reads the variable named `port`, in lower case. -/
def resolvedListenArg (env : Env) : StrOrNat :=
  resolveListenArg (envLookup env "port")

/-- The observable steps of `bootstrap()`. `log s` is `console.log(s)`;
`createApp` is `NestFactory.create(StockModule)`; `listen v` is
`app.listen(v)`, binding the listening socket. -/
inductive Event where
  | log : String → Event
  | createApp : Event
  | listen : StrOrNat → Event
deriving DecidableEq, Repr

/-- The trace of one run of `bootstrap()` under environment `env`, in source
order: the log line first, then application creation, then the listen call
with the resolved argument. -/
def bootstrapTrace (env : Env) : List Event :=
  [Event.log "Stock Service Starting...",
   Event.createApp,
   Event.listen (resolvedListenArg env)]

/-- Whether an event is a `console.log`. -/
def isLog : Event → Bool
  | Event.log _ => true
  | _ => false

/-- Whether an event is the `app.listen` call. -/
def isListen : Event → Bool
  | Event.listen _ => true
  | _ => false

/-- The texts of the log events of a trace, in order. -/
def logTexts (tr : List Event) : List String :=
  tr.filterMap (fun e => match e with
    | Event.log s => some s
    | _ => none)

/-- The ordering property the spec asserts of the startup notification: in
the trace, every log event occurs strictly after every listen (bind)
event. -/
def logOnlyAfterListen (tr : List Event) : Prop :=
  ∀ (i j : Fin tr.length),
    isLog (tr.get i) = true → isListen (tr.get j) = true → j < i

instance (tr : List Event) : Decidable (logOnlyAfterListen tr) := by
  unfold logOnlyAfterListen
  infer_instance

/-- C9: the fallback to 3000 triggers exactly when the variable `port` is
absent; every present string value, the empty string included, is kept
verbatim with no parsing, trimming or range check, and is never replaced by
the default. -/
theorem resolve_fallback_exactly_on_absent :
    resolveListenArg none = StrOrNat.num 3000 ∧
    ∀ s : String, resolveListenArg (some s) = StrOrNat.str s ∧
      resolveListenArg (some s) ≠ StrOrNat.num 3000 := by
  refine ⟨rfl, fun s => ⟨rfl, fun hcon => ?_⟩⟩
  exact StrOrNat.noConfusion hcon

/-- C4: when the environment override is absent, resolution yields the
build-time default `3000`. -/
theorem resolve_absent_gives_default (env : Env)
    (h : envLookup env "port" = none) :
    resolvedListenArg env = StrOrNat.num 3000 := by
  unfold resolvedListenArg
  rw [h]
  rfl

/-- C4 witness: the empty environment has no `port` binding and resolves to
the default 3000. -/
theorem resolve_absent_gives_default_on_empty :
    envLookup [] "port" = none ∧ resolvedListenArg [] = StrOrNat.num 3000 :=
  ⟨rfl, resolve_absent_gives_default [] rfl⟩

/-- C1 counterexample: a non-numeric override string and an out-of-range one
are not recovered to the default — resolution keeps the raw strings, so it
does not return the number 3000. -/
theorem resolve_invalid_not_defaulted :
    resolveListenArg (some "not-a-number") ≠ StrOrNat.num 3000 ∧
    resolveListenArg (some "99999") ≠ StrOrNat.num 3000 := by
  decide

/-- C1 (amended): no local recovery of invalid override values occurs: every
present override string, numeric or not, in range or not, is passed verbatim
to the listen call; the default 3000 is used only when the variable is
absent. -/
theorem resolve_present_verbatim (s : String) :
    resolveListenArg (some s) = StrOrNat.str s := rfl

/-- C2 counterexample: for the valid port string "3001", resolution does not
return the integer 3001 — no parse happens. -/
theorem resolve_valid_string_not_integer :
    resolveListenArg (some "3001") ≠ StrOrNat.num 3001 := by
  decide

/-- C2 (amended): for the decimal string of an in-range port, resolution
returns that string itself, unparsed, and the listen call receives it
verbatim. -/
theorem resolve_valid_string_kept (n : Nat) (h1 : 1 ≤ n) (h2 : n ≤ 65535) :
    resolveListenArg (some (toString n)) = StrOrNat.str (toString n) := rfl

/-- C2 witness: at the in-range port 3001 the resolved argument is the string
"3001" itself. -/
theorem resolve_valid_string_kept_at_3001 :
    1 ≤ 3001 ∧ 3001 ≤ 65535 ∧
      resolveListenArg (some (toString 3001)) = StrOrNat.str (toString 3001) :=
  ⟨by decide, by decide,
    resolve_valid_string_kept 3001 (by decide) (by decide)⟩

/-- C5 counterexample: with the environment holding only `PORT=3001` (upper
case), the bootstrap resolves the default 3000, not 3001 in any form — the
source consults the variable named `port`, in lower case. -/
theorem upper_case_PORT_not_consulted :
    resolvedListenArg [("PORT", "3001")] = StrOrNat.num 3000 ∧
    resolvedListenArg [("PORT", "3001")] ≠ StrOrNat.str "3001" ∧
    resolvedListenArg [("PORT", "3001")] ≠ StrOrNat.num 3001 := by
  decide

/-- C5 (amended): the variable the bootstrap consults is named `port` (lower
case); whenever that variable holds "3001", the listen call receives the
string "3001". -/
theorem lower_case_port_consulted (env : Env)
    (h : envLookup env "port" = some "3001") :
    resolvedListenArg env = StrOrNat.str "3001" := by
  unfold resolvedListenArg
  rw [h]
  rfl

/-- C5 witness: with `port=3001` bound, the listen argument is the string
"3001". -/
theorem lower_case_port_consulted_example :
    envLookup [("port", "3001")] "port" = some "3001" ∧
    resolvedListenArg [("port", "3001")] = StrOrNat.str "3001" :=
  ⟨by decide, lower_case_port_consulted [("port", "3001")] (by decide)⟩

/-- C7: port resolution is a pure function of the override value alone: two
environments agreeing on the `port` variable resolve to the same listen
argument, and resolution contributes no observable event of its own. -/
theorem resolve_deterministic (env env' : Env)
    (h : envLookup env "port" = envLookup env' "port") :
    resolvedListenArg env = resolvedListenArg env' := by
  unfold resolvedListenArg
  rw [h]

/-- C7 witness: two concrete environments with the same `port` value resolve
identically. -/
theorem resolve_deterministic_example :
    envLookup [("port", "8080")] "port" =
      envLookup [("a", "b"), ("port", "8080")] "port" ∧
    resolvedListenArg [("port", "8080")] =
      resolvedListenArg [("a", "b"), ("port", "8080")] :=
  ⟨by decide,
    resolve_deterministic [("port", "8080")] [("a", "b"), ("port", "8080")]
      (by decide)⟩

/-- C8: the listen port is resolved exactly once per run: the trace holds
exactly one listen event, and the value it observes is exactly what the
single resolution of the environment produced. -/
theorem listen_observes_single_resolution (env : Env) :
    (bootstrapTrace env).filter isListen =
      [Event.listen (resolveListenArg (envLookup env "port"))] := rfl

/-- C10: each bootstrap run logs exactly one line, the fixed text
"Stock Service Starting...", whatever the environment holds — the resolved
port does not influence the log output. -/
theorem startup_log_fixed (env : Env) :
    logTexts (bootstrapTrace env) = ["Stock Service Starting..."] := rfl

/-- C3 counterexample: in the run under the empty environment the startup
log is NOT emitted after the listen (bind) event — it is emitted first. -/
theorem startup_log_not_after_bind :
    ¬ logOnlyAfterListen (bootstrapTrace []) := by
  decide

/-- C3 (amended): the startup notification is emitted strictly before the
listen call (before the socket is bound), and the trace's log events are
exactly the one fixed line "Stock Service Starting...", which does not state
the resolved port. -/
theorem startup_log_precedes_bind (env : Env) (i j : Nat)
    (hi : ((bootstrapTrace env)[i]?).any isLog = true)
    (hj : ((bootstrapTrace env)[j]?).any isListen = true) :
    i < j ∧ (bootstrapTrace env).filter isLog =
      [Event.log "Stock Service Starting..."] := by
  refine ⟨?_, rfl⟩
  have hi0 : i = 0 := by
    match i, hi with
    | 0, _ => rfl
    | 1, hi => simp [bootstrapTrace, isLog] at hi
    | 2, hi => simp [bootstrapTrace, isLog] at hi
    | n + 3, hi => simp [bootstrapTrace] at hi
  have hj2 : j = 2 := by
    match j, hj with
    | 0, hj => simp [bootstrapTrace, isListen] at hj
    | 1, hj => simp [bootstrapTrace, isListen] at hj
    | 2, _ => rfl
    | n + 3, hj => simp [bootstrapTrace] at hj
  omega

/-- C3 witness: in the run under the empty environment, the log at position
0 precedes the listen call at position 2. -/
theorem startup_log_precedes_bind_example :
    (0 : Nat) < 2 ∧ (bootstrapTrace []).filter isLog =
      [Event.log "Stock Service Starting..."] :=
  startup_log_precedes_bind [] 0 2 (by decide) (by decide)

end StockBootstrap
